import Mathlib

/-!
Shallow embedding of the overlay crate (`src/lib.rs`): a gamepad-driven,
text-rendered menu overlay.  Widgets live in an arena (`List Widget`)
addressed by natural-number indices, mirroring the shared mutable
`Rc<RefCell<Box<dyn MenuItem>>>` handles of the source; the focus stack is a
list of arena indices.  Callback invocations (`Fn` trait objects in the
source) are recorded as an event trace.  A Rust panic (a failed `unwrap`,
an out-of-bounds index, a modulo by zero) is modelled as `none`; the
recursion of `Menu::control` into a child widget is bounded by explicit
fuel, which only ever runs out on arenas with index cycles, states that the
crate's public constructors cannot build.  `Number<T>` is instantiated at
mathematical integers.
-/

namespace Overlay

/-- The gamepad buttons the source consults (`wut::gamepad::Button`). -/
inductive Button where
  | a | b | left | right | up | down | l | r
  deriving DecidableEq, BEq, Repr

/-- One per-tick input snapshot (`wut::gamepad::State`): the edge-triggered
set `trigger` and the level-triggered set `hold`. -/
structure State where
  trigger : List Button
  hold : List Button
  deriving DecidableEq, Repr

/-- The closed sum of widget kinds behind the `MenuItem` trait object.
Children of a `menu` are arena indices (`Node` handles).  Callbacks are not
stored: their invocations are reported as events carrying the owning
widget's index.  `mn`/`mx` stand for the source fields `min`/`max`. -/
inductive Widget where
  | menu (name : String) (items : List Nat) (pos : Nat) (focused : Bool)
  | button (text : String)
  | text
  | number (text : String) (value inc mn mx : Int)
  | select (text : String) (options : List String) (index : Nat)
  | toggle (text : String) (value : Bool)
  deriving DecidableEq, Repr

/-- `MenuItem::focusable`: only `Menu` overrides the default `false`. -/
def Widget.focusable : Widget → Bool
  | .menu _ _ _ _ => true
  | _ => false

/-- `MenuItem::focus`: only `Menu` overrides the default no-op, setting its
`focused` flag. -/
def Widget.focus : Widget → Widget
  | .menu name items pos _ => .menu name items pos true
  | w => w

/-- `handle.borrow().focusable()` for the handle at index `j`. -/
def focusableAt (arena : List Widget) (j : Nat) : Bool :=
  match arena.get? j with
  | some w => w.focusable
  | none => false

/-- `handle.borrow_mut().focus()` for the handle at index `j`. -/
def focusAt (arena : List Widget) (j : Nat) : List Widget :=
  match arena.get? j with
  | some w => arena.set j w.focus
  | none => arena

/-- A recorded callback invocation: which widget's stored closure ran and
the arguments it received. -/
inductive Event where
  | buttonAction (widget : Nat)
  | numberAction (widget : Nat) (value : Int)
  | selectAction (widget : Nat) (index : Nat) (name : String)
  | toggleAction (widget : Nat) (value : Bool)
  deriving DecidableEq, Repr

/-- The Left branch of `Menu::control`:
`(self.pos + self.items.len() - 1) % self.items.len()`. -/
def menuLeft (pos n : Nat) : Nat := (pos + n - 1) % n

/-- The Right branch of `Menu::control`: `(self.pos + 1) % self.items.len()`. -/
def menuRight (pos n : Nat) : Nat := (pos + 1) % n

/-- The value evolution of `Number::control` in one tick: the Up branch
(add `inc`, clamp to `mx`) followed by the Down branch (subtract `inc`,
adopt only if `≥ mn` and strictly smaller, else clamp to `mn`). -/
def numberUpdate (value inc mn mx : Int) (up down : Bool) : Int :=
  let v1 := if up then (let n := value + inc; if n ≤ mx then n else mx) else value
  if down then (let n := v1 - inc; if mn ≤ n ∧ n < v1 then n else mn) else v1

/-- The index evolution of `Select::control` in one tick: Up increments
below the last index, Down decrements above zero; no wraparound. -/
def selectUpdate (index len : Nat) (up down : Bool) : Nat :=
  let i1 := if up then (if index < len - 1 then index + 1 else index) else index
  if down then (if 0 < i1 then i1 - 1 else i1) else i1

/-- Glyph constant of the external `wut::font::icons` module, modelled as a
distinct placeholder string (the actual glyph is an external detail). -/
def ARROW_UP : String := "ARROW_UP"

/-- Glyph constant of the external `wut::font::icons` module. -/
def ARROW_DOWN : String := "ARROW_DOWN"

/-- Glyph constant of the external `wut::font::icons` module. -/
def ARROW_UP_DOWN : String := "ARROW_UP_DOWN"

/-- `Number::render`: `"{label}: {value} {icon}"`, the icon chosen by
comparing `value` with `min` first, then `max`. -/
def numberRender (text : String) (value mn mx : Int) : String :=
  let icon := if value = mn then ARROW_UP
    else if value = mx then ARROW_DOWN
    else ARROW_UP_DOWN
  text ++ ": " ++ toString value ++ " " ++ icon

/-- `MenuItem::control` dispatched on the widget at index `i`, returning
the updated arena, the updated focus stack, the change flag, and the trace
of callback invocations; `none` models a Rust panic (out-of-bounds
indexing) or fuel exhaustion on a cyclic arena. -/
def control : Nat → List Widget → Nat → State → List Nat →
    Option (List Widget × List Nat × Bool × List Event)
  | 0, _, _, _, _ => none
  | fuel + 1, arena, i, input, stack =>
    match arena.get? i with
    | none => none
    | some (.menu name items pos focused) =>
      match items.get? pos with
      | none => none
      | some child =>
        if focusableAt arena child && input.trigger.contains Button.a then
          some (focusAt arena child, stack ++ [child], true, [])
        else if input.trigger.contains Button.b then
          if 1 < stack.length then
            some (arena.set i (.menu name items pos false), stack.dropLast, true, [])
          else some (arena, stack, false, [])
        else if input.trigger.contains Button.left then
          some (arena.set i (.menu name items (menuLeft pos items.length) focused),
            stack, true, [])
        else if input.trigger.contains Button.right then
          some (arena.set i (.menu name items (menuRight pos items.length) focused),
            stack, true, [])
        else control fuel arena child input stack
    | some (.button _) =>
      some (arena, stack, false,
        if input.trigger.contains Button.a then [.buttonAction i] else [])
    | some .text => some (arena, stack, true, [])
    | some (.number text value inc mn mx) =>
      let up := input.trigger.contains Button.up
      let down := input.trigger.contains Button.down
      let v := numberUpdate value inc mn mx up down
      some (if up || down then arena.set i (.number text v inc mn mx) else arena,
        stack, up || down,
        if input.trigger.contains Button.a then [.numberAction i v] else [])
    | some (.select text options index) =>
      let up := input.trigger.contains Button.up
      let down := input.trigger.contains Button.down
      let j := selectUpdate index options.length up down
      let arena2 := if up || down then arena.set i (.select text options j) else arena
      if input.trigger.contains Button.a then
        match options.get? j with
        | none => none
        | some name => some (arena2, stack, up || down, [.selectAction i j name])
      else some (arena2, stack, up || down, [])
    | some (.toggle text value) =>
      if input.trigger.contains Button.a then
        some (arena.set i (.toggle text (!value)), stack, true, [.toggleAction i (!value)])
      else some (arena, stack, false, [])

/-- The overlay session: the optional live HUD handle, the root handle and
the focus stack (`OverlayNotification` in the source). -/
structure OverlayNotification where
  hud : Option Unit
  root : Nat
  stack : List Nat
  deriving DecidableEq, Repr

/-- The activation gesture: `input.hold.contains(B::L | B::R)`, i.e. both
L and R held. -/
def gestureHeld (input : State) : Bool :=
  input.hold.contains Button.l && input.hold.contains Button.r

/-- `OverlayNotification::new`: no HUD, the stack seeded with the root
(the arena effect of `root.borrow_mut().focus()` is `focusAt`). -/
def OverlayNotification.new (root : Nat) : OverlayNotification :=
  { hud := none, root := root, stack := [root] }

/-- `OverlayNotification::run` for one tick.  `createOk` is the outcome of
the external fallible HUD creation (`notifications::dynamic("").show()`);
the source calls `.unwrap()` on it, so a failed creation is a panic,
modelled as `none`.  Rendering writes to the external HUD sink and touches
no session state, so it is not recorded. -/
def OverlayNotification.run (fuel : Nat) (arena : List Widget)
    (s : OverlayNotification) (input : State) (createOk : Bool) :
    Option (List Widget × OverlayNotification × List Event) :=
  if gestureHeld input then
    match (if s.hud.isNone then
        (if createOk then some { s with hud := some () } else none)
      else some s) with
    | none => none
    | some s1 =>
      match s1.stack.getLast? with
      | none => none
      | some top =>
        match control fuel arena top input s1.stack with
        | none => none
        | some (arena2, stack2, _, events) =>
          some (arena2, { s1 with stack := stack2 }, events)
  else some (arena, { s with hud := none }, [])

/-- The session states reachable from `OverlayNotification::new(root)` on
the arena `arena0` by any sequence of `run` calls with arbitrary inputs and
arbitrary HUD-creation outcomes. -/
inductive Reaches (arena0 : List Widget) (root : Nat) :
    List Widget → OverlayNotification → Prop where
  | init : Reaches arena0 root (focusAt arena0 root) (OverlayNotification.new root)
  | step {arena : List Widget} {s : OverlayNotification} {fuel : Nat} {input : State}
      {createOk : Bool} {arena2 : List Widget} {s2 : OverlayNotification}
      {events : List Event} :
      Reaches arena0 root arena s →
      OverlayNotification.run fuel arena s input createOk = some (arena2, s2, events) →
      Reaches arena0 root arena2 s2

/-- `Number::control`'s value after a whole sequence of ticks, each tick
given by its pair of Up/Down trigger flags. -/
def numberRun (value inc mn mx : Int) (presses : List (Bool × Bool)) : Int :=
  List.foldl (fun v p => numberUpdate v inc mn mx p.1 p.2) value presses

/-- `Select::control`'s index after a whole sequence of ticks, each tick
given by its pair of Up/Down trigger flags. -/
def selectRun (index len : Nat) (presses : List (Bool × Bool)) : Nat :=
  List.foldl (fun i p => selectUpdate i len p.1 p.2) index presses

lemma numberUpdate_mem (v inc mn mx : Int) (up down : Bool) (hinc : 0 ≤ inc)
    (h1 : mn ≤ v) (h2 : v ≤ mx) :
    mn ≤ numberUpdate v inc mn mx up down ∧ numberUpdate v inc mn mx up down ≤ mx := by
  cases up <;> cases down <;> simp [numberUpdate] <;> (try split_ifs) <;> omega

lemma numberRun_mem (inc mn mx : Int) (hinc : 0 ≤ inc) :
    ∀ (presses : List (Bool × Bool)) (v : Int), mn ≤ v → v ≤ mx →
      mn ≤ numberRun v inc mn mx presses ∧ numberRun v inc mn mx presses ≤ mx := by
  intro presses
  induction presses with
  | nil => intro v h1 h2; exact ⟨h1, h2⟩
  | cons p ps ih =>
    intro v h1 h2
    have hs := numberUpdate_mem v inc mn mx p.1 p.2 hinc h1 h2
    have hrest := ih (numberUpdate v inc mn mx p.1 p.2) hs.1 hs.2
    simpa [numberRun] using hrest

/-- Claim C3 (amended): for a `Number` with non-negative step, a value
starting in `[min, max]` stays in `[min, max]` under any sequence of
Up/Down ticks; an Up at `value = max` leaves `max`, and a Down at
`value = min` leaves `min` (the latter for any step). -/
theorem number_clamps :
    (∀ (value inc mn mx : Int) (presses : List (Bool × Bool)), 0 ≤ inc →
        mn ≤ value → value ≤ mx →
        mn ≤ numberRun value inc mn mx presses ∧
          numberRun value inc mn mx presses ≤ mx) ∧
    (∀ inc mn mx : Int, 0 ≤ inc → numberUpdate mx inc mn mx true false = mx) ∧
    (∀ inc mn mx : Int, numberUpdate mn inc mn mx false true = mn) := by
  refine ⟨fun value inc mn mx presses hinc h1 h2 =>
    numberRun_mem inc mn mx hinc presses value h1 h2, ?_, ?_⟩
  · intro inc mn mx hinc
    simp [numberUpdate] <;> (try split_ifs) <;> omega
  · intro inc mn mx
    simp [numberUpdate] <;> (try split_ifs) <;> omega

/-- Witness for C3 (amended) at value 5, step 1, range 0..10, with a
ten-press Up sequence followed by a Down press. -/
theorem number_clamps_witness :
    ((0 : Int) ≤ numberRun 5 1 0 10
        [(true, false), (true, false), (true, false), (true, false), (true, false),
          (true, false), (true, false), (true, false), (true, false), (false, true)] ∧
      numberRun 5 1 0 10
        [(true, false), (true, false), (true, false), (true, false), (true, false),
          (true, false), (true, false), (true, false), (true, false), (false, true)] ≤ 10) ∧
    numberUpdate 10 1 0 10 true false = 10 ∧
    numberUpdate 0 1 0 10 false true = 0 := by
  exact ⟨number_clamps.1 5 1 0 10 _ (by decide) (by decide) (by decide),
    number_clamps.2.1 1 0 10 (by decide), number_clamps.2.2 1 0 10⟩

/-- Counterexample to C3 as stated: a `Number` built with the negative step
`-1` and `min = max = value = 0` satisfies `min ≤ value ≤ max`, yet a
single Up press processed by `control` drives the value to `-1 < min`
(the Up branch adopts `value + inc` whenever it is `≤ max`, with no lower
guard).  It also refutes the sub-claim that Up at `value = max` leaves
`max`. -/
theorem number_clamps_cex :
    control 1 [Widget.number "n" 0 (-1) 0 0] 0 ⟨[Button.up], []⟩ [0]
      = some ([Widget.number "n" (-1) (-1) 0 0], [0], true, []) ∧
      ¬ ((0 : Int) ≤ -1) := by
  exact ⟨by decide, by decide⟩

lemma selectUpdate_lt (index len : Nat) (up down : Bool) (h : index < len) :
    selectUpdate index len up down < len := by
  cases up <;> cases down <;> simp [selectUpdate] <;> (try split_ifs) <;> omega

lemma selectRun_lt (len : Nat) :
    ∀ (presses : List (Bool × Bool)) (index : Nat), index < len →
      selectRun index len presses < len := by
  intro presses
  induction presses with
  | nil => intro index h; simpa [selectRun] using h
  | cons p ps ih =>
    intro index h
    have hrest := ih (selectUpdate index len p.1 p.2) (selectUpdate_lt index len p.1 p.2 h)
    simpa [selectRun] using hrest

/-- Claim C5: a `Select` index starting below `len` stays in `[0, len-1]`
under any sequence of ticks; an Up press at the last index and a Down press
at index 0 leave the index unchanged, yet `control` still reports a change
(`up || down`) — no wraparound. -/
theorem select_bounds :
    (∀ (index len : Nat) (presses : List (Bool × Bool)), index < len →
        selectRun index len presses < len) ∧
    (∀ len : Nat, 0 < len → selectUpdate (len - 1) len true false = len - 1) ∧
    (∀ len : Nat, selectUpdate 0 len false true = 0) ∧
    (∀ (fuel : Nat) (arena : List Widget) (i : Nat) (input : State) (text : String)
        (options : List String) (index : Nat) (stack : List Nat),
        arena.get? i = some (.select text options index) →
        input.trigger.contains Button.a = false →
        control (fuel + 1) arena i input stack
          = some ((if (input.trigger.contains Button.up || input.trigger.contains Button.down)
              then arena.set i (.select text options
                (selectUpdate index options.length (input.trigger.contains Button.up)
                  (input.trigger.contains Button.down)))
              else arena),
            stack,
            (input.trigger.contains Button.up || input.trigger.contains Button.down), [])) := by
  refine ⟨fun index len presses h => selectRun_lt len presses index h, ?_, ?_, ?_⟩
  · intro len h
    simp [selectUpdate] <;> (try split_ifs) <;> omega
  · intro len
    simp [selectUpdate] <;> (try split_ifs) <;> omega
  · intro fuel arena i input text options index stack h ha
    simp only [List.get?_eq_getElem?] at h
    simp [control, h, ha]

/-- Witness for C5 at a three-option `Select`: three Up presses stay below
3, the boundary presses keep the index, and `control` on an Up press at the
last index leaves the widget unchanged while reporting a change. -/
theorem select_bounds_witness :
    selectRun 0 3 [(true, false), (true, false), (true, false)] < 3 ∧
    selectUpdate 2 3 true false = 2 ∧
    selectUpdate 0 3 false true = 0 ∧
    control 1 [Widget.select "s" ["x", "y", "z"] 2] 0 ⟨[Button.up], []⟩ [0]
      = some ([Widget.select "s" ["x", "y", "z"] 2], [0], true, []) := by
  refine ⟨select_bounds.1 0 3 [(true, false), (true, false), (true, false)] (by decide),
    select_bounds.2.1 3 (by decide), select_bounds.2.2.1 3, ?_⟩
  have h := select_bounds.2.2.2 0 [Widget.select "s" ["x", "y", "z"] 2] 0
    ⟨[Button.up], []⟩ "s" ["x", "y", "z"] 2 [0] rfl rfl
  simpa [selectUpdate] using h

lemma menuRight_iterate (n : Nat) (h : 0 < n) :
    ∀ (k pos : Nat), pos < n → (fun p => menuRight p n)^[k] pos = (pos + k) % n := by
  intro k
  induction k with
  | zero => intro pos hp; simpa using (Nat.mod_eq_of_lt hp).symm
  | succ m ih =>
    intro pos hp
    have h2 : (pos + 1) % n < n := Nat.mod_lt _ h
    calc (fun p => menuRight p n)^[m + 1] pos
        = (fun p => menuRight p n)^[m] ((pos + 1) % n) := by
          rw [Function.iterate_succ_apply]
          simp only [menuRight]
      _ = ((pos + 1) % n + m) % n := ih ((pos + 1) % n) h2
      _ = (pos + 1 + m) % n := Nat.mod_add_mod (pos + 1) n m
      _ = (pos + (m + 1)) % n := by rw [show pos + 1 + m = pos + (m + 1) from by omega]

lemma menuLeft_iterate (n : Nat) (h : 0 < n) :
    ∀ (k pos : Nat), pos < n →
      (fun p => menuLeft p n)^[k] pos = (pos + k * (n - 1)) % n := by
  intro k
  induction k with
  | zero => intro pos hp; simpa using (Nat.mod_eq_of_lt hp).symm
  | succ m ih =>
    intro pos hp
    have h2 : (pos + n - 1) % n < n := Nat.mod_lt _ h
    calc (fun p => menuLeft p n)^[m + 1] pos
        = (fun p => menuLeft p n)^[m] ((pos + n - 1) % n) := by
          rw [Function.iterate_succ_apply]
          simp only [menuLeft]
      _ = ((pos + n - 1) % n + m * (n - 1)) % n := ih ((pos + n - 1) % n) h2
      _ = (pos + n - 1 + m * (n - 1)) % n := Nat.mod_add_mod (pos + n - 1) n (m * (n - 1))
      _ = (pos + (m + 1) * (n - 1)) % n := by
          rw [Nat.add_sub_assoc h, Nat.succ_mul]
          congr 1
          ring

/-- Claim C4: for a focused `Menu` with `n` items, the Right branch of
`control` applied `n` times returns the position to its start, and likewise
the Left branch; and on a Right-press (resp. Left-press) tick, `control`
performs exactly that branch. -/
theorem menu_cyclic :
    (∀ (n pos : Nat), 0 < n → pos < n → (fun p => menuRight p n)^[n] pos = pos) ∧
    (∀ (n pos : Nat), 0 < n → pos < n → (fun p => menuLeft p n)^[n] pos = pos) ∧
    (∀ (fuel : Nat) (arena : List Widget) (i : Nat) (input : State) (name : String)
        (items : List Nat) (pos : Nat) (focused : Bool) (child : Nat) (stack : List Nat),
        arena.get? i = some (.menu name items pos focused) →
        items.get? pos = some child →
        input.trigger.contains Button.a = false →
        input.trigger.contains Button.b = false →
        input.trigger.contains Button.left = false →
        input.trigger.contains Button.right = true →
        control (fuel + 1) arena i input stack
          = some (arena.set i (.menu name items (menuRight pos items.length) focused),
              stack, true, [])) ∧
    (∀ (fuel : Nat) (arena : List Widget) (i : Nat) (input : State) (name : String)
        (items : List Nat) (pos : Nat) (focused : Bool) (child : Nat) (stack : List Nat),
        arena.get? i = some (.menu name items pos focused) →
        items.get? pos = some child →
        input.trigger.contains Button.a = false →
        input.trigger.contains Button.b = false →
        input.trigger.contains Button.left = true →
        control (fuel + 1) arena i input stack
          = some (arena.set i (.menu name items (menuLeft pos items.length) focused),
              stack, true, [])) := by
  refine ⟨?_, ?_, ?_, ?_⟩
  · intro n pos h hp
    rw [menuRight_iterate n h n pos hp, Nat.add_mod_right]
    exact Nat.mod_eq_of_lt hp
  · intro n pos h hp
    rw [menuLeft_iterate n h n pos hp, Nat.add_mul_mod_self_left]
    exact Nat.mod_eq_of_lt hp
  · intro fuel arena i input name items pos focused child stack h hc hA hB hL hR
    simp only [List.get?_eq_getElem?] at h hc
    simp [control, h, hc, hA, hB, hL, hR]
  · intro fuel arena i input name items pos focused child stack h hc hA hB hL
    simp only [List.get?_eq_getElem?] at h hc
    simp [control, h, hc, hA, hB, hL]

/-- Witness for C4 on a four-item menu starting at position 1: four Right
steps and four Left steps return to 1, and a Right-press tick on a concrete
menu advances the position cyclically. -/
theorem menu_cyclic_witness :
    (fun p => menuRight p 4)^[4] 1 = 1 ∧
    (fun p => menuLeft p 4)^[4] 1 = 1 ∧
    control 1 [Widget.menu "m" [1, 2] 1 true, Widget.button "x", Widget.button "y"] 0
        ⟨[Button.right], []⟩ [0]
      = some ([Widget.menu "m" [1, 2] 0 true, Widget.button "x", Widget.button "y"],
          [0], true, []) := by
  refine ⟨menu_cyclic.1 4 1 (by decide) (by decide),
    menu_cyclic.2.1 4 1 (by decide) (by decide), ?_⟩
  have h := menu_cyclic.2.2.1 0
    [Widget.menu "m" [1, 2] 1 true, Widget.button "x", Widget.button "y"] 0
    ⟨[Button.right], []⟩ "m" [1, 2] 1 true 2 [0] rfl rfl rfl rfl rfl rfl
  simpa [menuRight] using h

lemma control_stack_shape :
    ∀ (fuel : Nat) (arena : List Widget) (i : Nat) (input : State) (r : Nat) (t : List Nat)
      (arena2 : List Widget) (stack2 : List Nat) (c : Bool) (ev : List Event),
      control fuel arena i input (r :: t) = some (arena2, stack2, c, ev) →
      ∃ t2, stack2 = r :: t2 := by
  intro fuel
  induction fuel with
  | zero =>
    intro arena i input r t arena2 stack2 c ev h
    simp [control] at h
  | succ m ih =>
    intro arena i input r t arena2 stack2 c ev h
    simp only [control] at h
    repeat' split at h
    all_goals first
      | exact Option.noConfusion h
      | exact ih _ _ _ _ _ _ _ _ _ h
      | (simp only [Option.some.injEq, Prod.mk.injEq] at h
         obtain ⟨h1, h2, h3, h4⟩ := h
         rw [← h2]
         first
           | exact ⟨_, rfl⟩
           | (cases t with
              | nil => simp_all
              | cons t0 ts => exact ⟨_, rfl⟩))

lemma createStep_fields (s s1 : OverlayNotification) (createOk : Bool)
    (h : (if s.hud.isNone then
        (if createOk then some { s with hud := some () } else none)
      else some s) = some s1) :
    s1.root = s.root ∧ s1.stack = s.stack := by
  repeat' split at h
  all_goals first
    | exact Option.noConfusion h
    | (obtain rfl := Option.some.inj h; exact ⟨rfl, rfl⟩)

lemma run_stack_shape (fuel : Nat) (arena : List Widget) (s : OverlayNotification)
    (input : State) (createOk : Bool) (arena2 : List Widget) (s2 : OverlayNotification)
    (events : List Event) (r : Nat) (t : List Nat)
    (hrun : OverlayNotification.run fuel arena s input createOk = some (arena2, s2, events))
    (hs : s.stack = r :: t) :
    s2.root = s.root ∧ ∃ t2, s2.stack = r :: t2 := by
  unfold OverlayNotification.run at hrun
  split at hrun
  case isTrue hg =>
    cases hcr : (if s.hud.isNone then
        (if createOk then some { s with hud := some () } else none)
      else some s) with
    | none => rw [hcr] at hrun; exact Option.noConfusion hrun
    | some s1 =>
      obtain ⟨hroot1, hstack1⟩ := createStep_fields s s1 createOk hcr
      rw [hcr] at hrun
      dsimp only at hrun
      cases hl : s1.stack.getLast? with
      | none =>
        rw [hstack1, hs] at hl
        simp [List.getLast?_eq_none_iff] at hl
      | some top =>
        rw [hl] at hrun
        dsimp only at hrun
        cases hc : control fuel arena top input s1.stack with
        | none => rw [hc] at hrun; exact Option.noConfusion hrun
        | some out =>
          obtain ⟨a2, st2, cflag, ev⟩ := out
          rw [hc] at hrun
          dsimp only at hrun
          simp only [Option.some.injEq, Prod.mk.injEq] at hrun
          obtain ⟨h1, h2, h3⟩ := hrun
          rw [hstack1, hs] at hc
          obtain ⟨t2, ht2⟩ := control_stack_shape fuel arena top input r t a2 st2 cflag ev hc
          rw [← h2]
          exact ⟨hroot1, t2, ht2⟩
  case isFalse hg =>
    simp only [Option.some.injEq, Prod.mk.injEq] at hrun
    obtain ⟨h1, h2, h3⟩ := hrun
    rw [← h2]
    exact ⟨rfl, t, hs⟩

lemma reaches_stack (arena0 : List Widget) (root : Nat) :
    ∀ (arena : List Widget) (s : OverlayNotification), Reaches arena0 root arena s →
      ∃ t, s.stack = root :: t := by
  intro arena s h
  induction h with
  | init => exact ⟨[], rfl⟩
  | step hr hrun ih =>
    obtain ⟨t, ht⟩ := ih
    exact (run_stack_shape _ _ _ _ _ _ _ _ _ _ hrun ht).2

/-- Claim C2: every session state reachable from
`OverlayNotification::new(root)` by any sequence of `run` calls has a focus
stack of length at least 1 whose bottom element is `root`; and a B-trigger
(without an A-trigger) on a menu at stack depth 1 leaves the arena and the
stack unchanged and reports no change. -/
theorem reachable_stack_bottom_and_back_noop :
    (∀ (arena0 : List Widget) (root : Nat) (arena : List Widget) (s : OverlayNotification),
        Reaches arena0 root arena s →
        1 ≤ s.stack.length ∧ s.stack.head? = some root) ∧
    (∀ (fuel : Nat) (arena : List Widget) (i : Nat) (input : State) (name : String)
        (items : List Nat) (pos : Nat) (focused : Bool) (child : Nat),
        arena.get? i = some (.menu name items pos focused) →
        items.get? pos = some child →
        input.trigger.contains Button.b = true →
        input.trigger.contains Button.a = false →
        control (fuel + 1) arena i input [i] = some (arena, [i], false, [])) := by
  constructor
  · intro arena0 root arena s h
    obtain ⟨t, ht⟩ := reaches_stack arena0 root arena s h
    rw [ht]
    exact ⟨by simp, rfl⟩
  · intro fuel arena i input name items pos focused child hm hc hb ha
    simp only [List.get?_eq_getElem?] at hm hc
    simp [control, hm, hc, hb, ha]

/-- Witness for C2: the freshly constructed session satisfies the stack
invariant, and a concrete depth-1 Back press is a reported no-op. -/
theorem reachable_stack_bottom_and_back_noop_witness :
    (1 ≤ (OverlayNotification.new 0).stack.length ∧
      (OverlayNotification.new 0).stack.head? = some 0) ∧
    control 1 [Widget.menu "m" [1] 0 true, Widget.button "x"] 0 ⟨[Button.b], []⟩ [0]
      = some ([Widget.menu "m" [1] 0 true, Widget.button "x"], [0], false, []) := by
  constructor
  · exact reachable_stack_bottom_and_back_noop.1
      [Widget.menu "m" [1] 0 true, Widget.button "x"] 0
      (focusAt [Widget.menu "m" [1] 0 true, Widget.button "x"] 0)
      (OverlayNotification.new 0) Reaches.init
  · exact reachable_stack_bottom_and_back_noop.2 0
      [Widget.menu "m" [1] 0 true, Widget.button "x"] 0 ⟨[Button.b], []⟩
      "m" [1] 0 true 1 rfl rfl rfl rfl

/-- Counterexample to C1 as stated: on an Idle-to-Active transition
(`hud = none`, gesture held) with a failed HUD creation, `run` panics (the
source unwraps the creation result) — modelled as `none` — rather than
returning normally with no state change. -/
theorem run_create_failure_cex :
    OverlayNotification.run 1 [Widget.menu "m" [1] 0 true, Widget.button "x"]
        { hud := none, root := 0, stack := [0] } ⟨[], [Button.l, Button.r]⟩ false
      = none := by
  decide

/-- Claim C1 (amended): HUD creation failure on an Idle-to-Active
transition makes `run` panic (the `unwrap`); creation is attempted only
when no handle exists — while the handle is live the outcome of the
external creation operation is irrelevant to `run` — and deactivation
clears the handle, so the next Idle-to-Active transition attempts creation
again. -/
theorem run_creation_retry :
    (∀ (fuel : Nat) (arena : List Widget) (s : OverlayNotification) (input : State),
        s.hud = none → gestureHeld input = true →
        OverlayNotification.run fuel arena s input false = none) ∧
    (∀ (fuel : Nat) (arena : List Widget) (s : OverlayNotification) (input : State),
        s.hud = some () →
        OverlayNotification.run fuel arena s input true
          = OverlayNotification.run fuel arena s input false) ∧
    (∀ (fuel : Nat) (arena : List Widget) (s : OverlayNotification) (input : State)
        (createOk : Bool) (arena2 : List Widget) (s2 : OverlayNotification)
        (events : List Event),
        gestureHeld input = false →
        OverlayNotification.run fuel arena s input createOk = some (arena2, s2, events) →
        s2.hud = none) ∧
    (∀ (fuel : Nat) (arena : List Widget) (s : OverlayNotification) (input : State)
        (arena2 : List Widget) (s2 : OverlayNotification) (events : List Event),
        s.hud = none → gestureHeld input = true →
        OverlayNotification.run fuel arena s input true = some (arena2, s2, events) →
        s2.hud = some ()) := by
  refine ⟨?_, ?_, ?_, ?_⟩
  · intro fuel arena s input hh hg
    simp [OverlayNotification.run, hh, hg]
  · intro fuel arena s input hh
    simp [OverlayNotification.run, hh]
  · intro fuel arena s input createOk arena2 s2 events hg hrun
    simp only [OverlayNotification.run, hg, Bool.false_eq_true, if_false,
      Option.some.injEq, Prod.mk.injEq] at hrun
    obtain ⟨h1, h2, h3⟩ := hrun
    rw [← h2]
  · intro fuel arena s input arena2 s2 events hh hg hrun
    simp only [OverlayNotification.run, hh, hg, if_true, Option.isNone_none] at hrun
    cases hl : s.stack.getLast? with
    | none => rw [hl] at hrun; exact Option.noConfusion hrun
    | some top =>
      rw [hl] at hrun
      dsimp only at hrun
      cases hc : control fuel arena top input s.stack with
      | none => rw [hc] at hrun; exact Option.noConfusion hrun
      | some out =>
        obtain ⟨a2, st2, cflag, ev⟩ := out
        rw [hc] at hrun
        dsimp only at hrun
        simp only [Option.some.injEq, Prod.mk.injEq] at hrun
        obtain ⟨h1, h2, h3⟩ := hrun
        rw [← h2]

/-- Witness for C1 (amended): with a live HUD handle, a tick under the held
gesture is insensitive to the creation outcome. -/
theorem run_creation_retry_witness :
    OverlayNotification.run 2 [Widget.menu "m" [1] 0 true, Widget.button "x"]
        { hud := some (), root := 0, stack := [0] } ⟨[], [Button.l, Button.r]⟩ true
      = OverlayNotification.run 2 [Widget.menu "m" [1] 0 true, Widget.button "x"]
        { hud := some (), root := 0, stack := [0] } ⟨[], [Button.l, Button.r]⟩ false := by
  exact run_creation_retry.2.1 2 [Widget.menu "m" [1] 0 true, Widget.button "x"]
    { hud := some (), root := 0, stack := [0] } ⟨[], [Button.l, Button.r]⟩ rfl

/-- Claim C6: `Menu::control` fires exactly one branch per tick, in the
priority order Enter > Back > Left > Right > delegate.  Enter (A-press)
fires only when the positioned child is focusable, and then focuses and
pushes that child and reports a change no matter which other buttons are
triggered; when no earlier branch fires, the call is delegated to the
positioned child and the child's change flag is returned unchanged. -/
theorem menu_branch_priority (fuel : Nat) (arena : List Widget) (i : Nat) (input : State)
    (name : String) (items : List Nat) (pos : Nat) (focused : Bool) (child : Nat)
    (stack : List Nat)
    (hm : arena.get? i = some (.menu name items pos focused))
    (hc : items.get? pos = some child) :
    (focusableAt arena child = true → input.trigger.contains Button.a = true →
        control (fuel + 1) arena i input stack
          = some (focusAt arena child, stack ++ [child], true, [])) ∧
    ((focusableAt arena child && input.trigger.contains Button.a) = false →
      input.trigger.contains Button.b = true →
        ((1 < stack.length →
            control (fuel + 1) arena i input stack
              = some (arena.set i (.menu name items pos false), stack.dropLast, true, [])) ∧
          (¬ 1 < stack.length →
            control (fuel + 1) arena i input stack = some (arena, stack, false, [])))) ∧
    ((focusableAt arena child && input.trigger.contains Button.a) = false →
      input.trigger.contains Button.b = false →
      input.trigger.contains Button.left = true →
        control (fuel + 1) arena i input stack
          = some (arena.set i (.menu name items (menuLeft pos items.length) focused),
              stack, true, [])) ∧
    ((focusableAt arena child && input.trigger.contains Button.a) = false →
      input.trigger.contains Button.b = false →
      input.trigger.contains Button.left = false →
      input.trigger.contains Button.right = true →
        control (fuel + 1) arena i input stack
          = some (arena.set i (.menu name items (menuRight pos items.length) focused),
              stack, true, [])) ∧
    ((focusableAt arena child && input.trigger.contains Button.a) = false →
      input.trigger.contains Button.b = false →
      input.trigger.contains Button.left = false →
      input.trigger.contains Button.right = false →
        control (fuel + 1) arena i input stack = control fuel arena child input stack) := by
  simp only [List.get?_eq_getElem?] at hm hc
  refine ⟨?_, ?_, ?_, ?_, ?_⟩
  · intro hf ha
    simp [control, hm, hc, hf, ha]
  · intro hfa hb
    constructor
    · intro hlen
      simp only [Bool.and_eq_false_iff] at hfa
      rcases hfa with hfa | hfa <;> simp [control, hm, hc, hfa, hb, hlen]
    · intro hlen
      simp only [Bool.and_eq_false_iff] at hfa
      rcases hfa with hfa | hfa <;> simp [control, hm, hc, hfa, hb, hlen]
  · intro hfa hb hl
    simp only [Bool.and_eq_false_iff] at hfa
    rcases hfa with hfa | hfa <;> simp [control, hm, hc, hfa, hb, hl]
  · intro hfa hb hl hr
    simp only [Bool.and_eq_false_iff] at hfa
    rcases hfa with hfa | hfa <;> simp [control, hm, hc, hfa, hb, hl, hr]
  · intro hfa hb hl hr
    simp only [Bool.and_eq_false_iff] at hfa
    rcases hfa with hfa | hfa <;> simp [control, hm, hc, hfa, hb, hl, hr]

/-- Witness for C6: with A, B, Left and Right all triggered at once over a
focusable child, the Enter branch alone fires; and with no navigation
button triggered, the tick is delegated to the positioned child (here a
`Text`, whose change flag `true` is passed through). -/
theorem menu_branch_priority_witness :
    control 2 [Widget.menu "m" [1, 2] 0 true, Widget.menu "s" [2] 0 false, Widget.text] 0
        ⟨[Button.a, Button.b, Button.left, Button.right], []⟩ [0]
      = some ([Widget.menu "m" [1, 2] 0 true, Widget.menu "s" [2] 0 true, Widget.text],
          [0, 1], true, []) ∧
    control 2 [Widget.menu "m" [1, 2] 1 true, Widget.menu "s" [2] 0 false, Widget.text] 0
        ⟨[], []⟩ [0]
      = some ([Widget.menu "m" [1, 2] 1 true, Widget.menu "s" [2] 0 false, Widget.text],
          [0], true, []) := by
  constructor
  · have h := (menu_branch_priority 1
      [Widget.menu "m" [1, 2] 0 true, Widget.menu "s" [2] 0 false, Widget.text] 0
      ⟨[Button.a, Button.b, Button.left, Button.right], []⟩ "m" [1, 2] 0 true 1 [0]
      rfl rfl).1 rfl rfl
    simpa [focusAt, Widget.focus] using h
  · have h := (menu_branch_priority 1
      [Widget.menu "m" [1, 2] 1 true, Widget.menu "s" [2] 0 false, Widget.text] 0
      ⟨[], []⟩ "m" [1, 2] 1 true 2 [0] rfl rfl).2.2.2.2 rfl rfl rfl rfl
    rw [h]
    decide

/-- Claim C7: `Button::control` returns `false` (no change) for every
input, never touches the arena or the stack, and invokes the stored action
callback exactly once on an A-press and never otherwise. -/
theorem button_no_change (fuel : Nat) (arena : List Widget) (i : Nat) (text : String)
    (input : State) (stack : List Nat)
    (h : arena.get? i = some (.button text)) :
    control (fuel + 1) arena i input stack
      = some (arena, stack, false,
          if input.trigger.contains Button.a then [Event.buttonAction i] else []) := by
  simp only [List.get?_eq_getElem?] at h
  simp [control, h]

/-- Witness for C7 at a concrete button widget and an A-press. -/
theorem button_no_change_witness :
    control 1 [Widget.button "ok"] 0 ⟨[Button.a], []⟩ [0]
      = some ([Widget.button "ok"], [0], false, [Event.buttonAction 0]) := by
  have h := button_no_change 0 [Widget.button "ok"] 0 "ok" ⟨[Button.a], []⟩ [0] rfl
  simpa using h

/-- Claim C9: when the hold set lacks the L+R gesture, `run` only drops the
HUD handle: the arena (every widget's internal state), the root handle and
the focus stack are returned unchanged and no callback runs. -/
theorem run_release_only_drops_hud (fuel : Nat) (arena : List Widget)
    (s : OverlayNotification) (input : State) (createOk : Bool)
    (h : gestureHeld input = false) :
    OverlayNotification.run fuel arena s input createOk
      = some (arena, { hud := none, root := s.root, stack := s.stack }, []) := by
  simp [OverlayNotification.run, h]

/-- Witness for C9: releasing the gesture mid-session keeps a depth-2
stack and the arena intact while clearing the HUD handle. -/
theorem run_release_only_drops_hud_witness :
    OverlayNotification.run 3 [Widget.menu "m" [1] 0 true, Widget.menu "s" [0] 0 true]
        { hud := some (), root := 0, stack := [0, 1] } ⟨[], [Button.l]⟩ true
      = some ([Widget.menu "m" [1] 0 true, Widget.menu "s" [0] 0 true],
          { hud := none, root := 0, stack := [0, 1] }, []) := by
  have h := run_release_only_drops_hud 3
    [Widget.menu "m" [1] 0 true, Widget.menu "s" [0] 0 true]
    { hud := some (), root := 0, stack := [0, 1] } ⟨[], [Button.l]⟩ true rfl
  simpa using h

/-- Claim C10: in `Number::control`, the Up/Down mutations (with clamping)
are applied first and an A-press invokes the action callback on the
already-updated value `numberUpdate value inc mn mx up down`, not on the
value held at the start of the tick. -/
theorem number_action_sees_updated_value (fuel : Nat) (arena : List Widget) (i : Nat)
    (text : String) (value inc mn mx : Int) (input : State) (stack : List Nat)
    (h : arena.get? i = some (.number text value inc mn mx))
    (ha : input.trigger.contains Button.a = true) :
    control (fuel + 1) arena i input stack
      = some ((if (input.trigger.contains Button.up || input.trigger.contains Button.down)
            then arena.set i (.number text
              (numberUpdate value inc mn mx (input.trigger.contains Button.up)
                (input.trigger.contains Button.down)) inc mn mx)
            else arena),
          stack,
          (input.trigger.contains Button.up || input.trigger.contains Button.down),
          [Event.numberAction i
            (numberUpdate value inc mn mx (input.trigger.contains Button.up)
              (input.trigger.contains Button.down))]) := by
  simp only [List.get?_eq_getElem?] at h
  simp [control, h, ha]

/-- Witness for C10: with Up and A in the same tick on value 5 (step 1,
range 0..10), the callback receives 6, the updated value. -/
theorem number_action_sees_updated_value_witness :
    control 1 [Widget.number "n" 5 1 0 10] 0 ⟨[Button.up, Button.a], []⟩ [0]
      = some ([Widget.number "n" 6 1 0 10], [0], true, [Event.numberAction 0 6]) := by
  have h := number_action_sees_updated_value 0 [Widget.number "n" 5 1 0 10] 0 "n"
    5 1 0 10 ⟨[Button.up, Button.a], []⟩ [0] rfl rfl
  simpa [numberUpdate] using h

/-- Claim C8: `Number::render` is `"{label}: {value} {icon}"` with the up
arrow at `value = min`, the down arrow at `value = max`, the up-down arrow
otherwise; since the min comparison comes first, `min = max` renders the up
arrow (and the two glyphs are distinct). -/
theorem number_render_icons :
    (∀ (text : String) (value mn mx : Int), value = mn →
        numberRender text value mn mx = text ++ ": " ++ toString value ++ " " ++ ARROW_UP) ∧
    (∀ (text : String) (value mn mx : Int), value ≠ mn → value = mx →
        numberRender text value mn mx = text ++ ": " ++ toString value ++ " " ++ ARROW_DOWN) ∧
    (∀ (text : String) (value mn mx : Int), value ≠ mn → value ≠ mx →
        numberRender text value mn mx = text ++ ": " ++ toString value ++ " " ++ ARROW_UP_DOWN) ∧
    (∀ (text : String) (value mn mx : Int), mn = mx → value = mn →
        numberRender text value mn mx = text ++ ": " ++ toString value ++ " " ++ ARROW_UP) ∧
    ARROW_UP ≠ ARROW_DOWN := by
  refine ⟨?_, ?_, ?_, ?_, ?_⟩
  · intro text value mn mx h1
    simp [numberRender, h1]
  · intro text value mn mx h1 h2
    subst h2
    simp [numberRender, h1]
  · intro text value mn mx h1 h2
    simp [numberRender, h1, h2]
  · intro text value mn mx h1 h2
    simp [numberRender, h2]
  · intro h
    simp [ARROW_UP, ARROW_DOWN] at h

/-- Witness for C8 at concrete values, including the `min = max` edge
case. -/
theorem number_render_icons_witness :
    numberRender "v" 0 0 9 = "v" ++ ": " ++ toString (0 : Int) ++ " " ++ ARROW_UP ∧
    numberRender "v" 9 0 9 = "v" ++ ": " ++ toString (9 : Int) ++ " " ++ ARROW_DOWN ∧
    numberRender "v" 4 0 9 = "v" ++ ": " ++ toString (4 : Int) ++ " " ++ ARROW_UP_DOWN ∧
    numberRender "v" 7 7 7 = "v" ++ ": " ++ toString (7 : Int) ++ " " ++ ARROW_UP := by
  refine ⟨number_render_icons.1 "v" 0 0 9 rfl,
    number_render_icons.2.1 "v" 9 0 9 (by decide) rfl,
    number_render_icons.2.2.1 "v" 4 0 9 (by decide) (by decide),
    number_render_icons.2.2.2.1 "v" 7 7 7 rfl rfl⟩

end Overlay
